import Mathlib

/-!
Shallow embedding of the SDL2 platformer in `src/main.cpp`.

The per-frame player kinematics (`Player::update`, main.cpp lines 128-179)
is modelled as a pure function on a `Player` record together with the
current `GameState` and the immutable platform list.  The C++ code stores
the vertical velocity in a `float`; the embedding uses `ℚ` for exact
arithmetic (the gravity constant `0.2f` is modelled as `1/5`).  The C++
cast `static_cast<int>(velY)` truncates toward zero; it is modelled by
`ratTrunc` below.  Screen coordinates are C `int`s, modelled as `ℤ`
(all values reached in the program are far from 32-bit overflow).
-/

/-- SCREEN_WIDTH, main.cpp line 8. -/
def screenWidth : ℤ := 800

/-- SCREEN_HEIGHT, main.cpp line 9. -/
def screenHeight : ℤ := 600

/-- GRAVITY = 0.2f, main.cpp line 10. -/
def gravity : ℚ := 1 / 5

/-- JUMP_SPEED = -6.0f, main.cpp line 11. -/
def jumpSpeed : ℚ := -6

/-- GROUND_LEVEL = SCREEN_HEIGHT - 50, main.cpp line 12. -/
def groundLevel : ℤ := screenHeight - 50

/-- PLATFORM_HEIGHT, main.cpp line 13. -/
def platformHeight : ℤ := 20

/-- PLATFORM_WIDTH, main.cpp line 14. -/
def platformWidth : ℤ := 150

/-- The player's horizontal speed, set to 3 in the Player constructor
(main.cpp line 126) and never changed. -/
def playerSpeed : ℤ := 3

/-- The GameState enumeration, main.cpp lines 16-24. -/
inductive GameState where
  | MainMenu
  | MapScreen
  | SkinScreen
  | GameScreen
  | WinScreen
  | LoseScreen
deriving DecidableEq, Repr

/-- A static platform rectangle (class Platform, main.cpp lines 63-82):
an SDL_Rect with fields x, y, w, h. -/
structure Platform where
  x : ℤ
  y : ℤ
  w : ℤ
  h : ℤ
deriving DecidableEq, Repr

/-- The mutable player state (class Player, main.cpp lines 122-198):
rectangle, vertical velocity `velY : float`, and `onGround : bool`.
The texture pointer is irrelevant to kinematics and omitted. -/
structure Player where
  x : ℤ
  y : ℤ
  w : ℤ
  h : ℤ
  velY : ℚ
  onGround : Bool
deriving DecidableEq, Repr

/-- The per-frame keyboard input read by `Player::update`:
`a` = SDL_SCANCODE_A (move left), `d` = SDL_SCANCODE_D (move right),
`w` = SDL_SCANCODE_W (jump). -/
structure Input where
  a : Bool
  d : Bool
  w : Bool
deriving DecidableEq, Repr

/-- Truncation of a rational toward zero, the semantics of the C++
`static_cast<int>` applied to `velY` at main.cpp line 144.  `Int.tdiv`
is the C-style division that rounds toward zero. -/
def ratTrunc (q : ℚ) : ℤ := q.num.tdiv q.den

/-- Horizontal movement and clamping, main.cpp lines 130-141:
`moveX` is `-speed` when A is held plus `+speed` when D is held, added to
`x`, then clamped by `if (x < 0) x = 0; if (x + w > SCREEN_WIDTH)
x = SCREEN_WIDTH - w;`. -/
def horizStep (input : Input) (p : Player) : Player :=
  let moveX : ℤ :=
    (if input.a then -playerSpeed else 0) + (if input.d then playerSpeed else 0)
  let x1 := p.x + moveX
  let x2 := if x1 < 0 then 0 else x1
  let x3 := if x2 + p.w > screenWidth then screenWidth - p.w else x2
  { p with x := x3 }

/-- Vertical integration, main.cpp lines 143-144:
`velY += GRAVITY; rect.y += static_cast<int>(velY);`. -/
def gravityStep (p : Player) : Player :=
  let v := p.velY + gravity
  { p with velY := v, y := p.y + ratTrunc v }

/-- The platform-collision test, main.cpp lines 151-152:
the player's bottom edge lies in the platform's vertical band
(inclusive on both ends) and the horizontal extents strictly overlap. -/
def platMatch (q : Platform) (p : Player) : Bool :=
  decide (p.y + p.h ≥ q.y) && decide (p.y + p.h ≤ q.y + q.h) &&
  decide (p.x + p.w > q.x) && decide (p.x < q.x + q.w)

/-- The platform loop body, main.cpp lines 148-159: on the first platform
whose test succeeds, snap the player's bottom to the platform top, set
`onGround`, zero the velocity, and `break`. -/
def collideLoop : List Platform → Player → Player
  | [], p => p
  | q :: rest, p =>
    if platMatch q p then { p with y := q.y - p.h, onGround := true, velY := 0 }
    else collideLoop rest p

/-- Collision resolution, main.cpp lines 147-159: `onGround = false;`
followed by the first-match platform loop. -/
def collideStep (platforms : List Platform) (p : Player) : Player :=
  collideLoop platforms { p with onGround := false }

/-- Ground-level check, main.cpp lines 161-167: if the bottom edge is at
or below GROUND_LEVEL, snap to the ground, set `onGround`, zero the
velocity, and set the game state to LoseScreen. -/
def groundStep (p : Player) (gs : GameState) : Player × GameState :=
  if p.y + p.h ≥ groundLevel then
    ({ p with y := groundLevel - p.h, onGround := true, velY := 0 },
     GameState.LoseScreen)
  else (p, gs)

/-- Right-edge win check, main.cpp lines 169-172: if the right edge is at
or beyond SCREEN_WIDTH, set the game state to WinScreen.  This runs after
the ground check and overwrites any LoseScreen it set. -/
def winStep (p : Player) (gs : GameState) : Player × GameState :=
  if p.x + p.w ≥ screenWidth then (p, GameState.WinScreen) else (p, gs)

/-- Jump, main.cpp lines 174-178: if `onGround` and W is held, clear
`onGround` and set the velocity to JUMP_SPEED. -/
def jumpStep (jump : Bool) (p : Player) : Player :=
  if p.onGround && jump then { p with onGround := false, velY := jumpSpeed }
  else p

/-- One full `Player::update` frame, main.cpp lines 128-179: horizontal
move and clamp, vertical integration, platform collision, ground check,
win check, jump — in exactly that order. -/
def update (input : Input) (gs : GameState) (platforms : List Platform)
    (p : Player) : Player × GameState :=
  let p1 := horizStep input p
  let p2 := gravityStep p1
  let p3 := collideStep platforms p2
  let pg := groundStep p3 gs
  let pw := winStep pg.1 pg.2
  (jumpStep input.w pw.1, pw.2)

/-- The fixed platform list, main.cpp lines 240-249. -/
def platformList : List Platform :=
  [ { x := 0, y := groundLevel - platformHeight, w := platformWidth, h := platformHeight },
    { x := 200, y := groundLevel - 100, w := platformWidth, h := platformHeight },
    { x := 0, y := groundLevel - 160, w := platformWidth, h := platformHeight },
    { x := 200, y := groundLevel - 240, w := platformWidth, h := platformHeight },
    { x := 0, y := groundLevel - 320, w := platformWidth, h := platformHeight },
    { x := 200, y := groundLevel - 400, w := platformWidth, h := platformHeight },
    { x := 400, y := groundLevel - 480, w := platformWidth, h := platformHeight },
    { x := 600, y := groundLevel - 160, w := platformWidth, h := platformHeight } ]

/-- The map image path list, main.cpp lines 228-234 (six entries). -/
def mapImagePaths : List String :=
  [ "images/nyc.bmp", "images/sydney.bmp", "images/london.bmp",
    "images/pisa.bmp", "images/moai.bmp", "images/pjatk.bmp" ]

/-- The skin image path list, main.cpp lines 236-238 (two entries). -/
def skinImagePaths : List String :=
  [ "skins/dziekan.bmp", "skins/rektor.bmp" ]

/-- Carousel "next" (right arrow), main.cpp lines 322 and 344:
`(i + 1) % n`. -/
def nextIndex (i n : ℕ) : ℕ := (i + 1) % n

/-- Carousel "previous" (left arrow), main.cpp lines 317 and 339:
`(i - 1 + n) % n`, computed here as `(i + n - 1) % n`, which agrees with
the C++ expression for every in-range index `i < n`. -/
def prevIndex (i n : ℕ) : ℕ := (i + n - 1) % n

/-- Outcome flags of the fallible startup steps: the five init/creation
steps in `main` (main.cpp lines 496-526) and the two audio steps at the
top of `runGameLoop` (main.cpp lines 263-278). -/
structure InitEnv where
  sdlInitOk : Bool
  imgInitOk : Bool
  ttfInitOk : Bool
  windowOk : Bool
  rendererOk : Bool
  wavLoadOk : Bool
  audioDeviceOk : Bool
deriving DecidableEq, Repr

/-- Whether `runGameLoop` reaches its main `while` loop: it returns early
(a plain `return;` from a `void` function) when the WAV file fails to
load (main.cpp line 266) or the audio device fails to open (line 277). -/
def gameLoopRuns (e : InitEnv) : Bool := e.wavLoadOk && e.audioDeviceOk

/-- The process exit code as a function of the startup outcomes,
main.cpp lines 494-538: each of the five init/creation failures returns 1
from `main`; otherwise `runGameLoop(renderer)` is called (even when it
returns early on an audio failure, `main` falls through) and `main`
returns 0. -/
def mainExitCode (e : InitEnv) : ℤ :=
  if !e.sdlInitOk then 1
  else if !e.imgInitOk then 1
  else if !e.ttfInitOk then 1
  else if !e.windowOk then 1
  else if !e.rendererOk then 1
  else 0

/-!
Helper lemmas: arithmetic facts about `ratTrunc` and the `1/5` gravity
constant, and field-preservation facts for the update stages.
-/

lemma gravity_eq_mkRat : gravity = mkRat 1 5 := by
  rw [gravity, Rat.mkRat_eq_div]
  norm_num

lemma ratTrunc_gravity : ratTrunc gravity = 0 := by
  rw [gravity_eq_mkRat]
  rfl

lemma neg6_add_gravity : (-6 : ℚ) + gravity = mkRat (-29) 5 := by
  rw [gravity, Rat.mkRat_eq_div]
  norm_num

lemma ratTrunc_mkRat_neg29_5 : ratTrunc (mkRat (-29) 5) = -5 := rfl

lemma gravity_nonneg : (0 : ℚ) ≤ gravity := by
  rw [gravity]
  norm_num

lemma ratTrunc_nonneg {q : ℚ} (h : 0 ≤ q) : 0 ≤ ratTrunc q :=
  Int.tdiv_nonneg (Rat.num_nonneg.mpr h) (Int.natCast_nonneg _)

lemma ratTrunc_eq_floor {q : ℚ} (h : 0 ≤ q) : ratTrunc q = ⌊q⌋ := by
  rw [ratTrunc, Rat.floor_def]
  exact Int.tdiv_eq_ediv (Rat.num_nonneg.mpr h) (Int.natCast_nonneg _)

lemma ratTrunc_neg (q : ℚ) : ratTrunc (-q) = -ratTrunc q := by
  rw [ratTrunc, ratTrunc, Rat.neg_num, Rat.neg_den, Int.neg_tdiv]

lemma ratTrunc_eq_ceil {q : ℚ} (h : q < 0) : ratTrunc q = ⌈q⌉ := by
  have h2 : (0 : ℚ) ≤ -q := by linarith
  have h3 : ratTrunc (-q) = ⌊-q⌋ := ratTrunc_eq_floor h2
  rw [ratTrunc_neg, Int.floor_neg] at h3
  omega

lemma horizStep_y (input : Input) (p : Player) : (horizStep input p).y = p.y := rfl

lemma horizStep_w (input : Input) (p : Player) : (horizStep input p).w = p.w := rfl

lemma horizStep_h (input : Input) (p : Player) : (horizStep input p).h = p.h := rfl

lemma horizStep_velY (input : Input) (p : Player) : (horizStep input p).velY = p.velY := rfl

lemma gravityStep_x (p : Player) : (gravityStep p).x = p.x := rfl

lemma gravityStep_w (p : Player) : (gravityStep p).w = p.w := rfl

lemma gravityStep_h (p : Player) : (gravityStep p).h = p.h := rfl

lemma gravityStep_onGround (p : Player) : (gravityStep p).onGround = p.onGround := rfl

lemma collideLoop_x (L : List Platform) (p : Player) : (collideLoop L p).x = p.x := by
  induction L with
  | nil => rfl
  | cons q rest ih =>
    by_cases h : platMatch q p = true
    · simp [collideLoop, h]
    · simp [collideLoop, h, ih]

lemma collideLoop_w (L : List Platform) (p : Player) : (collideLoop L p).w = p.w := by
  induction L with
  | nil => rfl
  | cons q rest ih =>
    by_cases h : platMatch q p = true
    · simp [collideLoop, h]
    · simp [collideLoop, h, ih]

lemma collideLoop_h (L : List Platform) (p : Player) : (collideLoop L p).h = p.h := by
  induction L with
  | nil => rfl
  | cons q rest ih =>
    by_cases h : platMatch q p = true
    · simp [collideLoop, h]
    · simp [collideLoop, h, ih]

lemma collideLoop_no_match (L : List Platform) (p : Player)
    (h : ∀ q ∈ L, platMatch q p = false) : collideLoop L p = p := by
  induction L with
  | nil => rfl
  | cons q rest ih =>
    have hq := h q (List.mem_cons_self q rest)
    simp [collideLoop, hq]
    exact ih fun r hr => h r (List.mem_cons_of_mem q hr)

lemma collideLoop_cases (L : List Platform) (p : Player) :
    collideLoop L p = p ∨
    ∃ q, q ∈ L ∧ platMatch q p = true ∧
      collideLoop L p = { p with y := q.y - p.h, onGround := true, velY := 0 } := by
  induction L with
  | nil => exact Or.inl rfl
  | cons q rest ih =>
    by_cases h : platMatch q p = true
    · exact Or.inr ⟨q, List.mem_cons_self q rest, h, by simp [collideLoop, h]⟩
    · rcases ih with h1 | ⟨r, hr, hm, he⟩
      · exact Or.inl (by simp [collideLoop, h, h1])
      · exact Or.inr ⟨r, List.mem_cons_of_mem q hr, hm, by simp [collideLoop, h, he]⟩

lemma collideStep_x (L : List Platform) (p : Player) : (collideStep L p).x = p.x :=
  collideLoop_x L _

lemma collideStep_w (L : List Platform) (p : Player) : (collideStep L p).w = p.w :=
  collideLoop_w L _

lemma collideStep_h (L : List Platform) (p : Player) : (collideStep L p).h = p.h :=
  collideLoop_h L _

lemma groundStep_x (p : Player) (gs : GameState) : (groundStep p gs).1.x = p.x := by
  rw [groundStep]
  split <;> rfl

lemma groundStep_w (p : Player) (gs : GameState) : (groundStep p gs).1.w = p.w := by
  rw [groundStep]
  split <;> rfl

lemma groundStep_h (p : Player) (gs : GameState) : (groundStep p gs).1.h = p.h := by
  rw [groundStep]
  split <;> rfl

lemma winStep_player (p : Player) (gs : GameState) : (winStep p gs).1 = p := by
  rw [winStep]
  split <;> rfl

lemma jumpStep_x (jump : Bool) (p : Player) : (jumpStep jump p).x = p.x := by
  rw [jumpStep]
  split <;> rfl

lemma jumpStep_y (jump : Bool) (p : Player) : (jumpStep jump p).y = p.y := by
  rw [jumpStep]
  split <;> rfl

lemma jumpStep_w (jump : Bool) (p : Player) : (jumpStep jump p).w = p.w := by
  rw [jumpStep]
  split <;> rfl

lemma jumpStep_h (jump : Bool) (p : Player) : (jumpStep jump p).h = p.h := by
  rw [jumpStep]
  split <;> rfl

lemma update_player_x (input : Input) (gs : GameState) (L : List Platform) (p : Player) :
    (update input gs L p).1.x = (horizStep input p).x := by
  rw [update]
  rw [jumpStep_x, winStep_player, groundStep_x, collideStep_x, gravityStep_x]

lemma update_player_w (input : Input) (gs : GameState) (L : List Platform) (p : Player) :
    (update input gs L p).1.w = p.w := by
  rw [update]
  rw [jumpStep_w, winStep_player, groundStep_w, collideStep_w, gravityStep_w, horizStep_w]

lemma update_player_h (input : Input) (gs : GameState) (L : List Platform) (p : Player) :
    (update input gs L p).1.h = p.h := by
  rw [update]
  rw [jumpStep_h, winStep_player, groundStep_h, collideStep_h, gravityStep_h, horizStep_h]

lemma platMatch_bounds {q : Platform} {p : Player} (h : platMatch q p = true) :
    q.y ≤ p.y + p.h ∧ p.y + p.h ≤ q.y + q.h := by
  have h2 := h
  simp only [platMatch, Bool.and_eq_true, decide_eq_true_eq, ge_iff_le] at h2
  exact ⟨h2.1.1.1, h2.1.1.2⟩

/-- Two platforms of a list whose vertical bands intersect have equal
tops.  This holds for the concrete `platformList` (checked by `decide`):
the only two platforms with intersecting bands are the two at height
`groundLevel - 160`, whose tops coincide, so the first-match policy of
the collision loop always snaps a matching player to the top of every
platform it matches. -/
def bandsCompatible (L : List Platform) : Prop :=
  ∀ q ∈ L, ∀ r ∈ L, q.y ≤ r.y + r.h → r.y ≤ q.y + q.h → q.y = r.y

lemma collideLoop_of_match (L : List Platform) (p : Player) (hc : bandsCompatible L)
    (P : Platform) (hP : P ∈ L) (hm : platMatch P p = true) :
    (collideLoop L p).y = P.y - p.h ∧ (collideLoop L p).onGround = true ∧
      (collideLoop L p).velY = 0 := by
  revert hc hP
  induction L with
  | nil => intro hc hP; cases hP
  | cons q rest ih =>
    intro hc hP
    by_cases hq : platMatch q p = true
    · have hqy : q.y = P.y := by
        rcases List.mem_cons.mp hP with h | h
        · rw [h]
        · have b1 := platMatch_bounds hq
          have b2 := platMatch_bounds hm
          exact hc q (List.mem_cons_self q rest) P (List.mem_cons_of_mem q h)
            (by omega) (by omega)
      simp [collideLoop, hq, hqy]
    · have hP2 : P ∈ rest := by
        rcases List.mem_cons.mp hP with h | h
        · exact absurd (h ▸ hm) hq
        · exact h
      have hc2 : bandsCompatible rest := fun a ha b hb =>
        hc a (List.mem_cons_of_mem q ha) b (List.mem_cons_of_mem q hb)
      have h3 := ih hc2 hP2
      simpa [collideLoop, hq] using h3

/-- C2: for every platform P of the program's platform list and every
player rectangle whose post-integration bottom edge lies in P's vertical
band with horizontally overlapping extents, the collision-resolution step
leaves the player's bottom edge exactly at P's top, grounded, with zero
vertical velocity.  The loop stops at the first matching platform; the
conclusion holds for every matching P because any two platforms of the
list with intersecting bands have equal tops. -/
theorem platform_collision_snaps_to_top (p : Player) (P : Platform)
    (hP : P ∈ platformList) (hm : platMatch P p = true) :
    (collideStep platformList p).y + p.h = P.y ∧
    (collideStep platformList p).onGround = true ∧
    (collideStep platformList p).velY = 0 := by
  have hcomp : bandsCompatible platformList := by
    unfold bandsCompatible
    decide
  have hm2 : platMatch P { p with onGround := false } = true := hm
  have h := collideLoop_of_match platformList { p with onGround := false } hcomp P hP hm2
  rw [collideStep]
  refine ⟨?_, h.2.1, h.2.2⟩
  have hy := h.1
  dsimp only at hy
  omega

/-- Witness for C2: the player standing over the lowest platform with
bottom edge 535 inside the band [530, 550]. -/
theorem platform_collision_snaps_to_top_witness :
    (collideStep platformList
        { x := 0, y := 485, w := 50, h := 50, velY := mkRat 1 2, onGround := false }).y + 50 =
      530 ∧
    (collideStep platformList
        { x := 0, y := 485, w := 50, h := 50, velY := mkRat 1 2, onGround := false }).onGround =
      true ∧
    (collideStep platformList
        { x := 0, y := 485, w := 50, h := 50, velY := mkRat 1 2, onGround := false }).velY = 0 :=
  platform_collision_snaps_to_top
    { x := 0, y := 485, w := 50, h := 50, velY := mkRat 1 2, onGround := false }
    { x := 0, y := 530, w := 150, h := 20 } (by decide) (by decide)

/-- C6: the jump rule changes the vertical velocity only when the player
is grounded at the jump check; an airborne player with the jump key held
is left unchanged, and a grounded player with the jump key held gets
velocity JUMP_SPEED with the grounded flag cleared. -/
theorem jump_only_when_grounded (jump : Bool) (p : Player) :
    (p.onGround = false → jumpStep jump p = p) ∧
    (jump = false → jumpStep jump p = p) ∧
    (p.onGround = true → jump = true →
      (jumpStep jump p).velY = jumpSpeed ∧ (jumpStep jump p).onGround = false ∧
      (jumpStep jump p).x = p.x ∧ (jumpStep jump p).y = p.y) := by
  refine ⟨?_, ?_, ?_⟩
  · intro h
    simp [jumpStep, h]
  · intro h
    simp [jumpStep, h]
  · intro h1 h2
    simp [jumpStep, h1, h2]

/-- Witness for C6: the jump rule at work on a concrete airborne player
(unchanged) and a concrete grounded player (velocity set to JUMP_SPEED). -/
theorem jump_only_when_grounded_witness :
    jumpStep true { x := 10, y := 20, w := 50, h := 50, velY := mkRat 3 5, onGround := false } =
      { x := 10, y := 20, w := 50, h := 50, velY := mkRat 3 5, onGround := false } ∧
    (jumpStep true { x := 10, y := 20, w := 50, h := 50, velY := 0, onGround := true }).velY =
      jumpSpeed :=
  ⟨(jump_only_when_grounded true
      { x := 10, y := 20, w := 50, h := 50, velY := mkRat 3 5, onGround := false }).1 rfl,
   ((jump_only_when_grounded true
      { x := 10, y := 20, w := 50, h := 50, velY := 0, onGround := true }).2.2 rfl rfl).1⟩

/-- C7 counterexample: over the six-entry map list, "previous" from
index 0 yields 5, but pressing "next" twice from there gives index 1,
not 0 as the claim states — a single "next" already returns to 0. -/
theorem carousel_double_next_gives_one :
    prevIndex 0 mapImagePaths.length = 5 ∧
    nextIndex (nextIndex (prevIndex 0 mapImagePaths.length) mapImagePaths.length)
        mapImagePaths.length = 1 ∧
    nextIndex (nextIndex (prevIndex 0 mapImagePaths.length) mapImagePaths.length)
        mapImagePaths.length ≠ 0 := by
  refine ⟨by decide, by decide, by decide⟩

/-- C7 amended: over the six-entry map list, "previous" from index 0
yields 5 and a single "next" returns the index to 0; in general both
directions wrap modulo the list length, the index always stays in
[0, length-1], and "next" and "previous" are mutually inverse. -/
theorem carousel_wraparound_modulo :
    prevIndex 0 mapImagePaths.length = 5 ∧
    nextIndex (prevIndex 0 mapImagePaths.length) mapImagePaths.length = 0 ∧
    ∀ i n : ℕ, 0 < n → i < n →
      nextIndex i n < n ∧ prevIndex i n < n ∧
      prevIndex (nextIndex i n) n = i ∧ nextIndex (prevIndex i n) n = i := by
  refine ⟨by decide, by decide, ?_⟩
  intro i n hn hi
  have hnext : nextIndex i n < n := Nat.mod_lt _ hn
  have hprev : prevIndex i n < n := Nat.mod_lt _ hn
  refine ⟨hnext, hprev, ?_, ?_⟩
  · rcases Nat.lt_or_ge (i + 1) n with h | h
    · rw [nextIndex, prevIndex, Nat.mod_eq_of_lt h]
      have h2 : i + 1 + n - 1 = i + n := by omega
      rw [h2, Nat.add_mod_right]
      exact Nat.mod_eq_of_lt hi
    · have h2 : i + 1 = n := by omega
      subst h2
      rw [nextIndex, prevIndex, Nat.mod_self]
      have h3 : 0 + (i + 1) - 1 = i := by omega
      rw [h3]
      exact Nat.mod_eq_of_lt hi
  · rcases Nat.eq_zero_or_pos i with h | h
    · subst h
      rw [prevIndex, nextIndex]
      have h2 : 0 + n - 1 = n - 1 := by omega
      rw [h2, Nat.mod_eq_of_lt (show n - 1 < n by omega)]
      have h3 : n - 1 + 1 = n := by omega
      rw [h3, Nat.mod_self]
    · obtain ⟨j, rfl⟩ : ∃ j, i = j + 1 := ⟨i - 1, by omega⟩
      rw [prevIndex, nextIndex]
      have h2 : j + 1 + n - 1 = j + n := by omega
      rw [h2, Nat.add_mod_right, Nat.mod_eq_of_lt (show j < n by omega)]
      exact Nat.mod_eq_of_lt hi

/-- Witness for C7 at index 2 of a 6-entry list. -/
theorem carousel_wraparound_modulo_witness :
    nextIndex 2 6 < 6 ∧ prevIndex 2 6 < 6 ∧
    prevIndex (nextIndex 2 6) 6 = 2 ∧ nextIndex (prevIndex 2 6) 6 = 2 :=
  carousel_wraparound_modulo.2.2 2 6 (by decide) (by decide)

/-- C8 counterexample: with every subsystem initialized but the WAV file
failing to load, `runGameLoop` returns early yet `main` falls through its
cleanup and returns 0 — the process does NOT exit with code 1 as the
claim states. -/
theorem wav_failure_exit_code_zero :
    mainExitCode
      { sdlInitOk := true, imgInitOk := true, ttfInitOk := true, windowOk := true,
        rendererOk := true, wavLoadOk := false, audioDeviceOk := true } = 0 ∧
    gameLoopRuns
      { sdlInitOk := true, imgInitOk := true, ttfInitOk := true, windowOk := true,
        rendererOk := true, wavLoadOk := false, audioDeviceOk := true } = false := by
  constructor
  · rfl
  · rfl

/-- C8 amended: the process exits with code 1 exactly when one of the
five init/creation steps of `main` fails (SDL_Init, IMG_Init, TTF_Init,
window creation, renderer creation); a WAV-load or audio-device failure
only prevents the game loop from running — `runGameLoop` returns early
and `main` still exits with code 0. -/
theorem exit_code_one_iff_init_failure (e : InitEnv) :
    (mainExitCode e = 1 ↔
      (e.sdlInitOk = false ∨ e.imgInitOk = false ∨ e.ttfInitOk = false ∨
       e.windowOk = false ∨ e.rendererOk = false)) ∧
    (gameLoopRuns e = true ↔ (e.wavLoadOk = true ∧ e.audioDeviceOk = true)) := by
  obtain ⟨a, b, c, d, r, wv, ad⟩ := e
  cases a <;> cases b <;> cases c <;> cases d <;> cases r <;> cases wv <;> cases ad <;>
    simp [mainExitCode, gameLoopRuns]

lemma groundStep_state (p : Player) (gs : GameState) :
    (groundStep p gs).2 = gs ∨ (groundStep p gs).2 = GameState.LoseScreen := by
  rw [groundStep]
  split
  · exact Or.inr rfl
  · exact Or.inl rfl

lemma winStep_state (p : Player) (gs : GameState) :
    (winStep p gs).2 = gs ∨ (winStep p gs).2 = GameState.WinScreen := by
  rw [winStep]
  split
  · exact Or.inr rfl
  · exact Or.inl rfl

/-- C10: one kinematics update never changes the player's width or
height (the platform list is passed by constant reference in the code
and is immutable in this model), and the game state either stays what it
was or becomes WinScreen or LoseScreen — never any other screen. -/
theorem update_frame_effect (input : Input) (gs : GameState) (L : List Platform)
    (p : Player) :
    (update input gs L p).1.w = p.w ∧ (update input gs L p).1.h = p.h ∧
    ((update input gs L p).2 = gs ∨ (update input gs L p).2 = GameState.WinScreen ∨
      (update input gs L p).2 = GameState.LoseScreen) := by
  refine ⟨update_player_w input gs L p, update_player_h input gs L p, ?_⟩
  rw [update]
  rcases winStep_state (groundStep (collideStep L (gravityStep (horizStep input p))) gs).1
      (groundStep (collideStep L (gravityStep (horizStep input p))) gs).2 with h | h
  · rw [h]
    rcases groundStep_state (collideStep L (gravityStep (horizStep input p))) gs with h2 | h2
    · exact Or.inl h2
    · exact Or.inr (Or.inr h2)
  · exact Or.inr (Or.inl h)

lemma update_eq (input : Input) (gs : GameState) (L : List Platform) (p : Player) :
    update input gs L p =
      (jumpStep input.w
         (winStep (groundStep (collideStep L (gravityStep (horizStep input p))) gs).1
            (groundStep (collideStep L (gravityStep (horizStep input p))) gs).2).1,
       (winStep (groundStep (collideStep L (gravityStep (horizStep input p))) gs).1
          (groundStep (collideStep L (gravityStep (horizStep input p))) gs).2).2) := rfl

lemma collideStep_inv (L : List Platform) (p : Player)
    (hg : (collideStep L p).onGround = true) : (collideStep L p).velY = 0 := by
  rw [collideStep] at hg ⊢
  rcases collideLoop_cases L { p with onGround := false } with hc | ⟨q, hq1, hq2, hc⟩
  · rw [hc] at hg
    cases hg
  · rw [hc]

lemma groundStep_inv (p : Player) (gs : GameState)
    (h : p.onGround = true → p.velY = 0)
    (hg : (groundStep p gs).1.onGround = true) : (groundStep p gs).1.velY = 0 := by
  rw [groundStep] at hg ⊢
  by_cases hc : p.y + p.h ≥ groundLevel
  · rw [if_pos hc]
  · rw [if_neg hc] at hg ⊢
    exact h hg

lemma jumpStep_inv (jump : Bool) (p : Player) (h : p.onGround = true → p.velY = 0)
    (hg : (jumpStep jump p).onGround = true) : (jumpStep jump p).velY = 0 := by
  rw [jumpStep] at hg ⊢
  by_cases hc : (p.onGround && jump) = true
  · rw [if_pos hc] at hg
    cases hg
  · rw [if_neg hc] at hg ⊢
    exact h hg

/-- C9: after any full kinematics update, a grounded player has zero
vertical velocity.  Every path that sets the grounded flag (platform
snap, ground snap) zeroes the velocity, and the only later assignment of
a nonzero velocity (the jump) clears the flag. -/
theorem grounded_implies_zero_velocity (input : Input) (gs : GameState)
    (L : List Platform) (p : Player)
    (h : (update input gs L p).1.onGround = true) :
    (update input gs L p).1.velY = 0 := by
  rw [update_eq] at h ⊢
  rw [winStep_player] at h ⊢
  exact jumpStep_inv input.w _
    (fun hgg => groundStep_inv _ gs (collideStep_inv L _) hgg) h

/-- Witness for C9: a player standing over the lowest platform with no
input is grounded after the update, and the theorem yields zero
velocity there. -/
theorem grounded_implies_zero_velocity_witness :
    (update { a := false, d := false, w := false } GameState.GameScreen platformList
        { x := 0, y := 485, w := 50, h := 50, velY := 0, onGround := true }).1.velY = 0 :=
  grounded_implies_zero_velocity { a := false, d := false, w := false }
    GameState.GameScreen platformList
    { x := 0, y := 485, w := 50, h := 50, velY := 0, onGround := true }
    (by
      simp [update, horizStep, gravityStep, collideStep, collideLoop, platMatch,
        groundStep, winStep, jumpStep, platformList, screenWidth, screenHeight,
        groundLevel, platformHeight, platformWidth, playerSpeed, ratTrunc_gravity])

/-- C4: for every input combination and every starting state whose x is
in range, the post-update x stays in [0, screenWidth - width]: the
horizontal step adds speed times the input direction and clamps, and no
later stage of the update touches x. -/
theorem horizontal_clamp_invariant (input : Input) (gs : GameState) (p : Player)
    (h0 : 0 ≤ p.x) (h1 : p.x + p.w ≤ screenWidth) :
    0 ≤ (update input gs platformList p).1.x ∧
    (update input gs platformList p).1.x + (update input gs platformList p).1.w ≤
      screenWidth ∧
    (update input gs platformList p).1.x = (horizStep input p).x := by
  have hx := update_player_x input gs platformList p
  have hw := update_player_w input gs platformList p
  rw [screenWidth] at h1
  refine ⟨?_, ?_, hx⟩
  · rw [hx]
    simp only [horizStep, playerSpeed, screenWidth]
    split_ifs <;> omega
  · rw [hx, hw]
    simp only [horizStep, playerSpeed, screenWidth]
    split_ifs <;> omega

/-- Witness for C4: a player at x = 1 moving left is clamped inside the
screen. -/
theorem horizontal_clamp_invariant_witness :
    0 ≤ (update { a := true, d := false, w := false } GameState.GameScreen platformList
        { x := 1, y := 100, w := 50, h := 50, velY := 0, onGround := false }).1.x ∧
    (update { a := true, d := false, w := false } GameState.GameScreen platformList
        { x := 1, y := 100, w := 50, h := 50, velY := 0, onGround := false }).1.x +
      (update { a := true, d := false, w := false } GameState.GameScreen platformList
        { x := 1, y := 100, w := 50, h := 50, velY := 0, onGround := false }).1.w ≤
      screenWidth ∧
    (update { a := true, d := false, w := false } GameState.GameScreen platformList
        { x := 1, y := 100, w := 50, h := 50, velY := 0, onGround := false }).1.x =
      (horizStep { a := true, d := false, w := false }
        { x := 1, y := 100, w := 50, h := 50, velY := 0, onGround := false }).x :=
  horizontal_clamp_invariant { a := true, d := false, w := false } GameState.GameScreen
    { x := 1, y := 100, w := 50, h := 50, velY := 0, onGround := false }
    (by decide) (by decide)

/-- Vertical integration as the spec words it (section 4.1 item 2):
"velocity += gravity; position.y += floor(velocity)" with floor rounding
toward negative infinity.  This follows the spec text, to be compared
with `gravityStep`, which models the source's toward-zero int cast. -/
def gravityStepSpecFloor (p : Player) : Player :=
  let v := p.velY + gravity
  { p with velY := v, y := p.y + ⌊v⌋ }

/-- C5 counterexample: for a player who just jumped (velY = -6), the
code's int cast moves y by -5 (truncation toward zero of -5.8), while
the spec's floor would move it by -6. -/
theorem int_cast_truncates_not_floors :
    (gravityStep { x := 100, y := 300, w := 50, h := 50, velY := -6, onGround := false }).y =
      295 ∧
    (gravityStepSpecFloor
        { x := 100, y := 300, w := 50, h := 50, velY := -6, onGround := false }).y = 294 ∧
    (295 : ℤ) ≠ 294 := by
  refine ⟨?_, ?_, by decide⟩
  · show (300 : ℤ) + ratTrunc (-6 + gravity) = 295
    rw [neg6_add_gravity, ratTrunc_mkRat_neg29_5]
    decide
  · show (300 : ℤ) + ⌊(-6 : ℚ) + gravity⌋ = 294
    rw [neg6_add_gravity, Rat.floor_def]
    decide

/-- C5 amended: the vertical step adds the gravity constant to the
velocity and then increments y by the velocity truncated toward zero
(the C++ int cast): this agrees with floor for nonnegative velocities
but rounds up (ceiling) for negative, upward velocities. -/
theorem vertical_step_truncates_toward_zero (p : Player) :
    (gravityStep p).velY = p.velY + gravity ∧
    (0 ≤ p.velY + gravity → (gravityStep p).y = p.y + ⌊p.velY + gravity⌋) ∧
    (p.velY + gravity < 0 → (gravityStep p).y = p.y + ⌈p.velY + gravity⌉) := by
  refine ⟨rfl, ?_, ?_⟩
  · intro h
    show p.y + ratTrunc (p.velY + gravity) = p.y + ⌊p.velY + gravity⌋
    rw [ratTrunc_eq_floor h]
  · intro h
    show p.y + ratTrunc (p.velY + gravity) = p.y + ⌈p.velY + gravity⌉
    rw [ratTrunc_eq_ceil h]

/-- Witness for the amended C5 at the jump velocity -6. -/
theorem vertical_step_truncates_toward_zero_witness :
    (gravityStep { x := 100, y := 300, w := 50, h := 50, velY := -6, onGround := false }).y =
      300 + ⌈(-6 : ℚ) + gravity⌉ :=
  (vertical_step_truncates_toward_zero
      { x := 100, y := 300, w := 50, h := 50, velY := -6, onGround := false }).2.2
    (by rw [gravity]; norm_num)

/-- The no-input keyboard state. -/
def inputNone : Input := { a := false, d := false, w := false }

/-- A player state in which the frame's lose condition and win condition
hold simultaneously: x = 750 with width 50 touches the right screen
edge, and the bottom edge 610 is below the ground line 550. -/
def pBoth : Player := { x := 750, y := 560, w := 50, h := 50, velY := 0, onGround := false }

/-- C1 counterexample: in a frame where both the lose condition and the
win condition hold, the resulting state is WinScreen, not LoseScreen:
the win assignment at main.cpp line 171 runs after the lose assignment
at line 166 and overwrites it. -/
theorem simultaneous_win_lose_yields_win_screen :
    groundLevel ≤
      (collideStep platformList (gravityStep (horizStep inputNone pBoth))).y +
        (collideStep platformList (gravityStep (horizStep inputNone pBoth))).h ∧
    screenWidth ≤ (horizStep inputNone pBoth).x + pBoth.w ∧
    (update inputNone GameState.GameScreen platformList pBoth).2 = GameState.WinScreen ∧
    (update inputNone GameState.GameScreen platformList pBoth).2 ≠ GameState.LoseScreen := by
  refine ⟨?_, ?_, ?_, ?_⟩ <;>
    simp [update, horizStep, gravityStep, collideStep, collideLoop, platMatch,
      groundStep, winStep, jumpStep, platformList, pBoth, inputNone, screenWidth,
      screenHeight, groundLevel, platformHeight, platformWidth, playerSpeed,
      ratTrunc_gravity]

/-- C1 amended: lose is evaluated before win, but the win branch is a
later assignment to the same state variable, so when both conditions
hold in one frame win overwrites lose and the resulting state is
WinScreen. -/
theorem win_overwrites_lose (input : Input) (gs : GameState) (p : Player)
    (_hl : groundLevel ≤
      (collideStep platformList (gravityStep (horizStep input p))).y +
        (collideStep platformList (gravityStep (horizStep input p))).h)
    (hw : screenWidth ≤ (horizStep input p).x + p.w) :
    (update input gs platformList p).2 = GameState.WinScreen := by
  have hcond : (groundStep (collideStep platformList (gravityStep (horizStep input p)))
      gs).1.x +
      (groundStep (collideStep platformList (gravityStep (horizStep input p))) gs).1.w ≥
      screenWidth := by
    rw [groundStep_x, groundStep_w, collideStep_x, collideStep_w, gravityStep_x,
      gravityStep_w, horizStep_w]
    exact hw
  rw [update_eq, winStep, if_pos hcond]

/-- Witness for the amended C1 at the concrete both-conditions state. -/
theorem win_overwrites_lose_witness :
    (update inputNone GameState.GameScreen platformList pBoth).2 = GameState.WinScreen :=
  win_overwrites_lose inputNone GameState.GameScreen pBoth
    (by
      simp [horizStep, gravityStep, collideStep, collideLoop, platMatch, platformList,
        pBoth, inputNone, screenWidth, screenHeight, groundLevel, platformHeight,
        platformWidth, playerSpeed, ratTrunc_gravity])
    (by decide)

lemma gravityStep_y (p : Player) : (gravityStep p).y = p.y + ratTrunc (p.velY + gravity) :=
  rfl

lemma gravityStep_velY (p : Player) : (gravityStep p).velY = p.velY + gravity := rfl

/-- A player below the ground line with the jump key held: the ground
snap fires, but the jump check at the end of the same frame sees the
grounded flag and immediately clears it, setting velY to JUMP_SPEED. -/
def pBelowGround : Player := { x := 0, y := 560, w := 50, h := 50, velY := 0, onGround := false }

/-- C3 counterexample: starting below the ground line with W held, the
frame ends in LoseScreen with the bottom snapped to the ground line, but
the player is NOT grounded and the velocity is NOT zero — the jump rule
runs after the ground snap and undoes both. -/
theorem ground_snap_then_jump_cancels_grounded :
    groundLevel ≤ pBelowGround.y + pBelowGround.h ∧
    (update { a := false, d := false, w := true } GameState.GameScreen platformList
        pBelowGround).1.onGround = false ∧
    (update { a := false, d := false, w := true } GameState.GameScreen platformList
        pBelowGround).1.velY = jumpSpeed ∧
    jumpSpeed ≠ 0 ∧
    (update { a := false, d := false, w := true } GameState.GameScreen platformList
        pBelowGround).2 = GameState.LoseScreen := by
  refine ⟨?_, ?_, ?_, ?_, ?_⟩ <;>
    simp [update, horizStep, gravityStep, collideStep, collideLoop, platMatch,
      groundStep, winStep, jumpStep, platformList, pBelowGround, screenWidth,
      screenHeight, groundLevel, platformHeight, platformWidth, playerSpeed,
      ratTrunc_gravity, jumpSpeed]

/-- C3 amended: if the player's bottom edge starts at or below the
ground line, the vertical velocity is nonnegative, no platform matches
the post-integration rectangle, the jump key is not held, and the right
edge stays left of the screen edge, then the update ends with the bottom
edge exactly on the ground line, grounded, zero velocity, and state
LoseScreen. -/
theorem ground_snap_and_lose (input : Input) (gs : GameState) (p : Player)
    (hstart : groundLevel ≤ p.y + p.h)
    (hv : 0 ≤ p.velY)
    (hnoplat : ∀ q ∈ platformList, platMatch q (gravityStep (horizStep input p)) = false)
    (hjump : input.w = false)
    (hwin : (horizStep input p).x + p.w < screenWidth) :
    (update input gs platformList p).1.y + (update input gs platformList p).1.h =
      groundLevel ∧
    (update input gs platformList p).1.onGround = true ∧
    (update input gs platformList p).1.velY = 0 ∧
    (update input gs platformList p).2 = GameState.LoseScreen := by
  have hcol : collideStep platformList (gravityStep (horizStep input p)) =
      { gravityStep (horizStep input p) with onGround := false } := by
    rw [collideStep]
    exact collideLoop_no_match _ _ (fun q hq => hnoplat q hq)
  have hbot : groundLevel ≤ (gravityStep (horizStep input p)).y +
      (gravityStep (horizStep input p)).h := by
    rw [gravityStep_y, gravityStep_h, horizStep_y, horizStep_h, horizStep_velY]
    have ht : 0 ≤ ratTrunc (p.velY + gravity) :=
      ratTrunc_nonneg (add_nonneg hv gravity_nonneg)
    omega
  have hground : groundStep (collideStep platformList (gravityStep (horizStep input p)))
      gs =
      ({ gravityStep (horizStep input p) with
          y := groundLevel - (gravityStep (horizStep input p)).h,
          onGround := true, velY := 0 }, GameState.LoseScreen) := by
    rw [hcol, groundStep, if_pos hbot]
  have hnw : ¬(({ gravityStep (horizStep input p) with
      y := groundLevel - (gravityStep (horizStep input p)).h,
      onGround := true, velY := 0 } : Player).x +
      ({ gravityStep (horizStep input p) with
          y := groundLevel - (gravityStep (horizStep input p)).h,
          onGround := true, velY := 0 } : Player).w ≥ screenWidth) := by
    dsimp only
    rw [gravityStep_x, gravityStep_w, horizStep_w]
    omega
  rw [update_eq, hground]
  dsimp only
  rw [winStep, if_neg hnw]
  dsimp only
  rw [jumpStep, hjump]
  dsimp only [Bool.and_false]
  rw [if_neg (by simp)]
  dsimp only
  rw [gravityStep_h, horizStep_h]
  refine ⟨by omega, rfl, rfl, rfl⟩

/-- Witness for the amended C3: a player at rest below the ground line
with no input ends the frame snapped onto the ground line in LoseScreen. -/
theorem ground_snap_and_lose_witness :
    (update inputNone GameState.GameScreen platformList
        { x := 300, y := 520, w := 50, h := 50, velY := 0, onGround := false }).1.y +
      (update inputNone GameState.GameScreen platformList
        { x := 300, y := 520, w := 50, h := 50, velY := 0, onGround := false }).1.h =
      groundLevel ∧
    (update inputNone GameState.GameScreen platformList
        { x := 300, y := 520, w := 50, h := 50, velY := 0, onGround := false }).1.onGround =
      true ∧
    (update inputNone GameState.GameScreen platformList
        { x := 300, y := 520, w := 50, h := 50, velY := 0, onGround := false }).1.velY = 0 ∧
    (update inputNone GameState.GameScreen platformList
        { x := 300, y := 520, w := 50, h := 50, velY := 0, onGround := false }).2 =
      GameState.LoseScreen :=
  ground_snap_and_lose inputNone GameState.GameScreen
    { x := 300, y := 520, w := 50, h := 50, velY := 0, onGround := false }
    (by decide) (by norm_num)
    (by
      have h2 : gravityStep (horizStep inputNone
          { x := 300, y := 520, w := 50, h := 50, velY := 0, onGround := false }) =
          { x := 300, y := 520, w := 50, h := 50, velY := gravity, onGround := false } := by
        simp [gravityStep, horizStep, inputNone, playerSpeed, screenWidth,
          ratTrunc_gravity]
      rw [h2]
      decide)
    rfl (by decide)
